import Mathlib

/-!
Shallow embedding of the daily-challenge widget (`src/widget.py`) in Lean 4,
with theorems settling the frozen claims about its specification.

Conventions of the embedding:
* Python machine state (fields of `TransparentWindow`) becomes explicit
  arguments and return values.
* Timestamps are modelled as integer seconds since the Unix epoch;
  `datetime` subtraction followed by `.days` is Python floor division of the
  second difference by 86400 (`Int.fdiv`).
* Fallible external effects (the osu! API call, filesystem operations) are
  modelled by explicit outcome parameters; a Python exception escaping a
  region is modelled by `Option` (`none` = exception reached the enclosing
  handler).
* Window sizing `int(base * (scale / 100))` is two IEEE binary64
  operations followed by truncation toward zero; it is embedded exactly, by
  performing both round-to-nearest-even roundings (the division by 100 and
  the multiplication by the base) in integer arithmetic on dyadic
  rationals. The float rounding matters: at thirteen reachable scales the
  product lands just below an integer and truncation yields one less than
  the exact floor of `base * scale / 100`.
-/

namespace DailyWidget

/-- A point / window position, as in Qt `QPoint`. -/
structure Pos where
  x : Int
  y : Int
deriving DecidableEq, Repr

/-- A screen rectangle, as returned by `screen.geometry()`. -/
structure ScreenRect where
  x : Int
  y : Int
  w : Int
  h : Int
deriving DecidableEq, Repr

/-- Python `abs` on integers. -/
def pyAbs (n : Int) : Int := if n < 0 then -n else n

/-- The osu! credential triple held on the window
(`osu_client_id`, `osu_client_secret`, `osu_username`). -/
structure Creds where
  client_id : String
  client_secret : String
  username : String
deriving DecidableEq, Repr

/-- Outcome of the external status-provider call
(`Ossapi(...)` construction plus `api.user(username)` plus field access):
either an integer streak or any raised exception. -/
inductive ProviderResult where
  | ok : Int → ProviderResult
  | err : ProviderResult
deriving DecidableEq, Repr

/-- Which of the two HTML templates is rendered. -/
inductive PresentationMode where
  | Default : PresentationMode
  | Alternate : PresentationMode
deriving DecidableEq, Repr

/-- Result of `get_daily_streak`: the returned text, the
`use_alternative_template` flag it leaves behind, and whether the provider
was contacted at all. -/
structure StreakResult where
  text : String
  useAlt : Bool
  providerCalled : Bool
deriving DecidableEq, Repr

/-- Unix timestamp of the reference instant 2024-07-24T00:00:00Z
(`datetime(2024, 7, 24, 0, 0, 0, tzinfo=timezone.utc)`). -/
def startDateSecs : Int := 1721779200

/-- `calculate_days_since_start`: whole days from the reference instant to
`now`; Python `(current_date - start_date).days` floor-divides the second
difference by 86400. -/
def calculate_days_since_start (now : Int) : Int :=
  Int.fdiv (now - startDateSecs) 86400

/-- `get_daily_streak`: fail-fast on any empty credential field (no provider
contact, template flag cleared, text `"0d"`); otherwise the provider outcome
decides: any error degrades to `"0d"` with the default template, a streak
value sets the alternative-template flag exactly when
`days_since_start - streak == 0` and returns `f"{streak}d"`.
The Python body catches every exception, so the function is total. -/
def get_daily_streak (c : Creds) (now : Int) (provider : ProviderResult) :
    StreakResult :=
  if c.client_id = "" ∨ c.client_secret = "" ∨ c.username = "" then
    ⟨"0d", false, false⟩
  else
    match provider with
    | .err => ⟨"0d", false, true⟩
    | .ok streak =>
      let diff := calculate_days_since_start now - streak
      ⟨toString streak ++ "d", decide (diff = 0), true⟩

/-- The presentation mode derived from the `use_alternative_template` flag. -/
def presentationMode (useAlt : Bool) : PresentationMode :=
  if useAlt then .Alternate else .Default

/-- Claim C1: for every successful poll, the presentation mode is `Alternate`
iff whole days since 2024-07-24T00:00:00Z minus the returned streak equal 0;
in particular a poll at 2024-07-25T00:00:00Z (Unix 1721865600) with streak 1
yields `Alternate` and with streak 0 yields `Default`. -/
theorem claim1_presentation_selection :
    (∀ (c : Creds) (now streak : Int),
      c.client_id ≠ "" → c.client_secret ≠ "" → c.username ≠ "" →
      (presentationMode (get_daily_streak c now (.ok streak)).useAlt =
          .Alternate ↔
        calculate_days_since_start now - streak = 0)) ∧
    presentationMode
      (get_daily_streak ⟨"id", "sec", "user"⟩ 1721865600 (.ok 1)).useAlt =
      .Alternate ∧
    presentationMode
      (get_daily_streak ⟨"id", "sec", "user"⟩ 1721865600 (.ok 0)).useAlt =
      .Default := by
  refine ⟨?_, by decide, by decide⟩
  intro c now streak h1 h2 h3
  simp only [get_daily_streak, h1, h2, h3, or_self, or_false,
    presentationMode]
  by_cases hd : calculate_days_since_start now - streak = 0 <;>
    simp [hd]

/-- Concrete instantiation of the universally quantified part of
`claim1_presentation_selection`. -/
theorem claim1_presentation_selection_witness :
    presentationMode
      (get_daily_streak ⟨"id", "sec", "user"⟩ 1721865600 (.ok 1)).useAlt =
      .Alternate ∧
    calculate_days_since_start 1721865600 - 1 = 0 :=
  ⟨(claim1_presentation_selection.1 ⟨"id", "sec", "user"⟩ 1721865600 1
      (by decide) (by decide) (by decide)).2 (by decide),
    by decide⟩

/-- Claim C2: an empty credential field makes the poll return the degraded
result immediately, with no provider contact; any provider error also
degrades to streak text `"0d"`, template flag cleared, mode `Default`.
`get_daily_streak` is a total function, so no exception escapes it. -/
theorem claim2_degraded_poll :
    ∀ (c : Creds) (now : Int) (provider : ProviderResult),
      ((c.client_id = "" ∨ c.client_secret = "" ∨ c.username = "") →
        get_daily_streak c now provider = ⟨"0d", false, false⟩) ∧
      ((get_daily_streak c now .err).text = "0d" ∧
        (get_daily_streak c now .err).useAlt = false ∧
        presentationMode (get_daily_streak c now .err).useAlt = .Default) := by
  intro c now provider
  constructor
  · intro h
    simp [get_daily_streak, h]
  · by_cases h : c.client_id = "" ∨ c.client_secret = "" ∨ c.username = "" <;>
      simp [get_daily_streak, h, presentationMode]

/-- Concrete instantiation of `claim2_degraded_poll`: an empty client id with
the other fields set returns the degraded result without provider contact. -/
theorem claim2_degraded_poll_witness :
    get_daily_streak ⟨"", "X", "Y"⟩ 0 .err = ⟨"0d", false, false⟩ ∧
    (get_daily_streak ⟨"a", "b", "c"⟩ 0 .err).text = "0d" :=
  ⟨(claim2_degraded_poll ⟨"", "X", "Y"⟩ 0 .err).1 (Or.inl rfl),
    ((claim2_degraded_poll ⟨"a", "b", "c"⟩ 0 .err).2).1⟩

/-- Bit length of a natural number, written with explicit fuel so that the
kernel can evaluate it by iota reduction (64 bits cover every number in
this development). -/
def bitLenAux : Nat → Nat → Nat
  | 0, _ => 0
  | fuel + 1, n => if n = 0 then 0 else bitLenAux fuel (n / 2) + 1

/-- Bit length of a natural number. -/
def bitLen (n : Nat) : Nat := bitLenAux 64 n

/-- Round the rational `p / q` (assumed `≥ 1` and below the binary64
overflow range) to the nearest IEEE binary64 value, ties to even, returned
as a dyadic pair `(m, s)` of value `m / 2 ^ s` with `2 ^ 52 ≤ m < 2 ^ 53`. -/
def roundRatToDouble (p q : Nat) : Nat × Nat :=
  let e := bitLen (p / q) - 1
  let s := 52 - e
  let num := p * 2 ^ s
  let d := num / q
  let r := num % q
  let m :=
    if q < 2 * r then d + 1
    else if 2 * r < q then d
    else if d % 2 = 0 then d else d + 1
  if m = 2 ^ 53 then (2 ^ 52, s - 1) else (m, s)

/-- Window sizing as in `__init__`, `initUI`, `updateSize` and
`toggle_template`: `int(base * (scale / 100))`, embedded exactly as IEEE
binary64 arithmetic — `scale / 100` rounded to the nearest double, the
product with `base` rounded to the nearest double, then truncated toward
zero (both intermediate values are positive, so truncation is floor). -/
def computeSize (scalePercent base : Nat) : Nat :=
  let r1 := roundRatToDouble scalePercent 100
  let r2 := roundRatToDouble (base * r1.1) (2 ^ r1.2)
  r2.1 / 2 ^ r2.2

/-- A second definition following the spec's words only, for comparison:
`round(base * scalePercent/100)`, rounding to the nearest integer. -/
def computeSizeRounded (scalePercent base : Nat) : Nat :=
  (base * scalePercent + 50) / 100

/-- The scales in the reachable range `[100, 500]` at which the two float
roundings land the product `150 * (scale / 100)` just below an integer, so
that truncation returns one less than the exact floor (for the base height
57 this never happens). -/
def floorDeficitScales : List Nat :=
  [114, 138, 164, 226, 228, 276, 278, 326, 328, 402, 406, 452, 456]

/-- Claim C5 counterexample: at scale 150 the base height 57 scales to the
exactly representable 85.5; the code truncates to 85 while the claimed
rounding gives 86. -/
theorem claim5_rounding_counterexample :
    computeSize 150 57 = 85 ∧ computeSizeRounded 150 57 = 86 ∧
    computeSize 150 57 ≠ computeSizeRounded 150 57 := by
  refine ⟨by decide, by decide, by decide⟩

set_option maxRecDepth 40000 in
/-- Claim C5 amended: `computeSize` truncates the binary64 evaluation of
`base * (scalePercent / 100)` instead of rounding to the nearest integer;
over the program's reachable inputs (scales 100–500 with the base
dimensions 150 and 57) this equals the exact floor of
`base * scalePercent / 100`, except at the thirteen scales of
`floorDeficitScales` for the base width 150, where float rounding gives one
less than the exact floor. -/
theorem claim5_truncating_scaling :
    computeSize 150 57 = 85 ∧
    computeSize 114 150 = 170 ∧
    computeSize 100 150 = 150 ∧
    computeSize 100 57 = 57 ∧
    ((List.range 401).all fun i =>
      (computeSize (100 + i) 57 == 57 * (100 + i) / 100) &&
      (computeSize (100 + i) 150 ==
        150 * (100 + i) / 100 -
          (if floorDeficitScales.contains (100 + i) then 1 else 0))) =
      true := by
  refine ⟨by decide, by decide, by decide, by decide, by decide⟩

/-- One axis of the edge-snap logic in `mouseMoveEvent`: if the leading edge
is within `snap_distance = 10` of the screen's low edge, clamp to it; else if
the trailing edge is within 10 of the screen's high edge, clamp to that;
otherwise leave the coordinate unchanged. -/
def snapAxis (pos screenLo screenLen winLen : Int) : Int :=
  if pyAbs (pos - screenLo) < 10 then screenLo
  else if pyAbs (screenLo + screenLen - (pos + winLen)) < 10 then
    screenLo + screenLen - winLen
  else pos

/-- The full two-axis snap adjustment applied to a candidate position while
the pointer moves slowly. -/
def applySnap (p : Pos) (s : ScreenRect) (w h : Int) : Pos :=
  ⟨snapAxis p.x s.x s.w w, snapAxis p.y s.y s.h h⟩

/-- One-axis idempotence of the snap, provided the screen extent and window
extent differ by at least the snap threshold (or are equal). -/
theorem snapAxis_idem (pos screenLo screenLen winLen : Int)
    (h : 10 ≤ pyAbs (screenLen - winLen) ∨ screenLen = winLen) :
    snapAxis (snapAxis pos screenLo screenLen winLen)
        screenLo screenLen winLen =
      snapAxis pos screenLo screenLen winLen := by
  simp only [snapAxis, pyAbs] at *
  split_ifs at * <;> omega

/-- Claim C9 counterexample: with screen `(0,0,100,100)`, window `95 × 95`
and candidate `(12,12)`, one snap gives `(5,5)` (right/bottom edges clamp)
but a second snap moves on to `(0,0)` (the moved edges now lie within the
threshold of the opposite screen edges), so `applySnap` is not idempotent. -/
theorem claim9_snap_not_idempotent :
    applySnap (applySnap ⟨12, 12⟩ ⟨0, 0, 100, 100⟩ 95 95)
        ⟨0, 0, 100, 100⟩ 95 95 ≠
      applySnap ⟨12, 12⟩ ⟨0, 0, 100, 100⟩ 95 95 ∧
    applySnap ⟨12, 12⟩ ⟨0, 0, 100, 100⟩ 95 95 = (⟨5, 5⟩ : Pos) := by
  refine ⟨by decide, by decide⟩

/-- Claim C9 amended: `applySnap` is idempotent whenever, on each axis, the
screen extent differs from the window extent by at least the snap threshold
of 10 pixels (or equals it exactly); the counterexample's near-screen-sized
window is the only way to defeat idempotence. -/
theorem claim9_snap_idempotent (p : Pos) (s : ScreenRect) (w h : Int)
    (hw : 10 ≤ pyAbs (s.w - w) ∨ s.w = w)
    (hh : 10 ≤ pyAbs (s.h - h) ∨ s.h = h) :
    applySnap (applySnap p s w h) s w h = applySnap p s w h := by
  simp only [applySnap]
  rw [snapAxis_idem _ _ _ _ hw, snapAxis_idem _ _ _ _ hh]

/-- Concrete instantiation of `claim9_snap_idempotent`: an ordinary window
well inside an ordinary screen. -/
theorem claim9_snap_idempotent_witness :
    (10 ≤ pyAbs ((1920 : Int) - 150) ∨ (1920 : Int) = 150) ∧
    (10 ≤ pyAbs ((1080 : Int) - 57) ∨ (1080 : Int) = 57) ∧
    applySnap (applySnap ⟨300, 300⟩ ⟨0, 0, 1920, 1080⟩ 150 57)
        ⟨0, 0, 1920, 1080⟩ 150 57 =
      applySnap ⟨300, 300⟩ ⟨0, 0, 1920, 1080⟩ 150 57 :=
  ⟨Or.inl (by decide), Or.inl (by decide),
    claim9_snap_idempotent ⟨300, 300⟩ ⟨0, 0, 1920, 1080⟩ 150 57
      (Or.inl (by decide)) (Or.inl (by decide))⟩

/-- The startup position check in `__init__`: some screen fully contains the
window footprint anchored at `p`. -/
def validPosition (p : Pos) (screens : List ScreenRect) (w h : Int) : Bool :=
  screens.any fun s =>
    decide (s.x ≤ p.x) && decide (p.x + w ≤ s.x + s.w) &&
      decide (s.y ≤ p.y) && decide (p.y + h ≤ s.y + s.h)

/-- Qt `QRect.center()` x coordinate: `(left + right) / 2` with
`right = x + w - 1`, C integer division truncating toward zero. -/
def qrectCenterX (s : ScreenRect) : Int := Int.tdiv (s.x + (s.x + s.w - 1)) 2

/-- Qt `QRect.center()` y coordinate. -/
def qrectCenterY (s : ScreenRect) : Int := Int.tdiv (s.y + (s.y + s.h - 1)) 2

/-- The fallback position of `__init__`: the primary screen's center minus
half the window size (Python floor division `// 2`). -/
def fallbackCenterPos (primary : ScreenRect) (w h : Int) : Pos :=
  ⟨qrectCenterX primary - Int.fdiv w 2, qrectCenterY primary - Int.fdiv h 2⟩

/-- The startup position decision of `__init__`: keep the persisted position
when some screen fully contains the footprint, otherwise center on the
primary screen. -/
def startupPosition (p : Pos) (screens : List ScreenRect)
    (primary : ScreenRect) (w h : Int) : Pos :=
  if validPosition p screens w h then p else fallbackCenterPos primary w h

/-- The window footprint at `p` is disjoint from the screen rectangle `s`
(fully outside it). -/
def footprintOutside (p : Pos) (s : ScreenRect) (w h : Int) : Prop :=
  p.x + w ≤ s.x ∨ s.x + s.w ≤ p.x ∨ p.y + h ≤ s.y ∨ s.y + s.h ≤ p.y

/-- Claim C6: the persisted position is accepted iff the window footprint is
fully contained in at least one screen rectangle; a position whose footprint
lies fully outside every screen yields the centered fallback on the primary
screen (for a window of positive extent). -/
theorem claim6_startup_position (p : Pos) (screens : List ScreenRect)
    (primary : ScreenRect) (w h : Int) :
    (validPosition p screens w h = true ↔
      ∃ s ∈ screens, s.x ≤ p.x ∧ p.x + w ≤ s.x + s.w ∧
        s.y ≤ p.y ∧ p.y + h ≤ s.y + s.h) ∧
    (validPosition p screens w h = true →
      startupPosition p screens primary w h = p) ∧
    (0 < w → 0 < h → (∀ s ∈ screens, footprintOutside p s w h) →
      startupPosition p screens primary w h =
        fallbackCenterPos primary w h) := by
  refine ⟨?_, ?_, ?_⟩
  · simp [validPosition, List.any_eq_true, and_assoc]
  · intro hv
    simp [startupPosition, hv]
  · intro hw hh hout
    have hv : validPosition p screens w h = false := by
      simp only [validPosition, List.any_eq_false]
      intro s hs
      have := hout s hs
      simp only [footprintOutside] at this
      simp only [Bool.and_eq_true, decide_eq_true_eq, not_and]
      rcases this with h1 | h1 | h1 | h1 <;> intros <;> omega
    simp [startupPosition, hv]

/-- Concrete instantiation of `claim6_startup_position`: a persisted position
far outside the single `(0,0,100,100)` screen is replaced by the centered
fallback `(44, 44)` for a `10 × 10` window. -/
theorem claim6_startup_position_witness :
    validPosition ⟨1000, 1000⟩ [⟨0, 0, 100, 100⟩] 10 10 = false ∧
    (∀ s ∈ [(⟨0, 0, 100, 100⟩ : ScreenRect)],
      footprintOutside ⟨1000, 1000⟩ s 10 10) ∧
    startupPosition ⟨1000, 1000⟩ [⟨0, 0, 100, 100⟩] ⟨0, 0, 100, 100⟩ 10 10 =
      ⟨44, 44⟩ := by
  refine ⟨by decide, ?_, ?_⟩
  · intro s hs
    simp only [List.mem_singleton] at hs
    subst hs
    simp only [footprintOutside]
    exact Or.inr (Or.inl (by decide))
  · have := (claim6_startup_position ⟨1000, 1000⟩ [⟨0, 0, 100, 100⟩]
      ⟨0, 0, 100, 100⟩ 10 10).2.2 (by decide) (by decide)
      (by
        intro s hs
        simp only [List.mem_singleton] at hs
        subst hs
        exact Or.inr (Or.inl (by decide)))
    rw [this]
    decide

/-- Qt `QRect.contains` for a point: inclusive of the left/top edge and of
`right = x + w - 1`, `bottom = y + h - 1`. -/
def containsPoint (s : ScreenRect) (p : Pos) : Bool :=
  decide (s.x ≤ p.x) && decide (p.x ≤ s.x + s.w - 1) &&
    decide (s.y ≤ p.y) && decide (p.y ≤ s.y + s.h - 1)

/-- Result of one `mouseMoveEvent` step: the position the window is moved to
and whether `save_settings` was requested. -/
structure DragResult where
  newPos : Pos
  saved : Bool
deriving DecidableEq, Repr

/-- `mouseMoveEvent`: translate the window by the pointer delta; when the
per-step displacement is below 5 px on both axes, additionally snap against
the screen under the pointer (primary screen as fallback) and persist the
position; a fast step moves without snapping and without saving. -/
def mouseMoveEvent (winPos oldPos globalPos : Pos)
    (screens : List ScreenRect) (primary : ScreenRect) (w h : Int) :
    DragResult :=
  let dx := globalPos.x - oldPos.x
  let dy := globalPos.y - oldPos.y
  let np : Pos := ⟨winPos.x + dx, winPos.y + dy⟩
  let cur := (screens.find? fun s => containsPoint s globalPos).getD primary
  if pyAbs dx < 5 ∧ pyAbs dy < 5 then ⟨applySnap np cur w h, true⟩
  else ⟨np, false⟩

/-- The four arrow keys handled by `keyPressEvent`. -/
inductive ArrowKey where
  | left : ArrowKey
  | right : ArrowKey
  | up : ArrowKey
  | down : ArrowKey
deriving DecidableEq, Repr

/-- `self.arrow_step`. -/
def arrowStep : Int := 2

/-- The arrow-key branch of `keyPressEvent`: nudge by `arrow_step` and
persist (returns the new position and whether a save was issued). -/
def keyPressArrow (p : Pos) (k : ArrowKey) : Pos × Bool :=
  match k with
  | .left => (⟨p.x - arrowStep, p.y⟩, true)
  | .right => (⟨p.x + arrowStep, p.y⟩, true)
  | .up => (⟨p.x, p.y - arrowStep⟩, true)
  | .down => (⟨p.x, p.y + arrowStep⟩, true)

/-- `setScale`: store the new scale and persist (the animated resize then
saves once more on completion). Returns the stored scale and save flag. -/
def setScale (newScale : Int) : Int × Bool :=
  (newScale, true)

/-- `toggle_always_on_top`: flip the flag and persist. -/
def toggle_always_on_top (alwaysOnTop : Bool) : Bool × Bool :=
  (!alwaysOnTop, true)

/-- `toggle_template`: flip the template preference, re-render and persist. -/
def toggle_template (useAlt : Bool) : Bool × Bool :=
  (!useAlt, true)

/-- `update_osu_settings`: apply each provided field in order
(client id, client secret, username); after writing a field, trigger an
immediate `update_streak` poll when the other two fields are non-empty at
that moment; save iff any field was provided. Returns the final credential
state, the credential snapshots at each triggered poll, and the save flag. -/
def update_osu_settings (st : Creds) (cid cs un : Option String) :
    Creds × List Creds × Bool :=
  let r1 : Creds × List Creds × Bool :=
    match cid with
    | none => (st, [], false)
    | some v =>
      let st' : Creds := { st with client_id := v }
      if st.client_secret = "" ∨ st.username = "" then (st', [], true)
      else (st', [st'], true)
  let r2 : Creds × List Creds × Bool :=
    match cs with
    | none => (r1.1, [], r1.2.2)
    | some v =>
      let st' : Creds := { r1.1 with client_secret := v }
      if r1.1.client_id = "" ∨ r1.1.username = "" then (st', [], true)
      else (st', [st'], true)
  let r3 : Creds × List Creds × Bool :=
    match un with
    | none => (r2.1, [], r2.2.2)
    | some v =>
      let st' : Creds := { r2.1 with username := v }
      if r2.1.client_id = "" ∨ r2.1.client_secret = "" then (st', [], true)
      else (st', [st'], true)
  (r3.1, r1.2.1 ++ r2.2.1 ++ r3.2.1, r3.2.2)

/-- All three credential fields are non-empty. -/
def credsComplete (c : Creds) : Bool :=
  !(c.client_id = "" || c.client_secret = "" || c.username = "")

/-- The credential state after applying the provided updates. -/
def applyCreds (st : Creds) (cid cs un : Option String) : Creds :=
  ⟨cid.getD st.client_id, cs.getD st.client_secret, un.getD st.username⟩

/-- Claim C7 counterexample: a drag step of 10 px moves the window (the
position changes) but issues no save. -/
theorem claim7_fast_drag_counterexample :
    (mouseMoveEvent ⟨0, 0⟩ ⟨0, 0⟩ ⟨10, 0⟩ [⟨0, 0, 1920, 1080⟩]
        ⟨0, 0, 1920, 1080⟩ 150 57).saved = false ∧
    (mouseMoveEvent ⟨0, 0⟩ ⟨0, 0⟩ ⟨10, 0⟩ [⟨0, 0, 1920, 1080⟩]
        ⟨0, 0, 1920, 1080⟩ 150 57).newPos ≠ (⟨0, 0⟩ : Pos) := by
  refine ⟨by decide, by decide⟩

/-- Claim C7 amended: every mutating action persists the settings except a
fast drag step — a drag step saves iff its per-step displacement is below
5 px on both axes; arrow nudges, scale changes, both toggles, and credential
updates that change at least one field always end with a save. -/
theorem claim7_eager_persistence :
    ∀ (winPos oldPos globalPos : Pos) (screens : List ScreenRect)
      (primary : ScreenRect) (w h : Int) (p : Pos) (k : ArrowKey)
      (scale : Int) (b1 b2 : Bool) (st : Creds) (cid cs un : Option String),
      ((mouseMoveEvent winPos oldPos globalPos screens primary w h).saved =
          true ↔
        pyAbs (globalPos.x - oldPos.x) < 5 ∧
          pyAbs (globalPos.y - oldPos.y) < 5) ∧
      (keyPressArrow p k).2 = true ∧
      (setScale scale).2 = true ∧
      (toggle_always_on_top b1).2 = true ∧
      (toggle_template b2).2 = true ∧
      ((update_osu_settings st cid cs un).2.2 = true ↔
        cid.isSome ∨ cs.isSome ∨ un.isSome) := by
  intro winPos oldPos globalPos screens primary w h p k scale b1 b2 st cid
    cs un
  refine ⟨?_, ?_, rfl, rfl, rfl, ?_⟩
  · simp only [mouseMoveEvent]
    by_cases hc : pyAbs (globalPos.x - oldPos.x) < 5 ∧
        pyAbs (globalPos.y - oldPos.y) < 5 <;>
      simp [hc]
  · cases k <;> rfl
  · rcases cid with _ | v1 <;> rcases cs with _ | v2 <;>
      rcases un with _ | v3 <;>
      simp only [update_osu_settings, Option.isSome] <;>
      first
        | (split_ifs <;> simp)
        | simp

/-- Claim C8 counterexample: with all three fields set, writing an empty
client id still triggers an immediate poll (the other two fields are
non-empty), although the credential set after the update is partial. -/
theorem claim8_partial_poll_counterexample :
    (update_osu_settings ⟨"A", "S", "U"⟩ (some "") none none).2.1 =
      [⟨"", "S", "U"⟩] ∧
    credsComplete
      (update_osu_settings ⟨"A", "S", "U"⟩ (some "") none none).1 =
      false := by
  refine ⟨by decide, by decide⟩

/-- Claim C8 amended: writing a credential field triggers an immediate poll
when the other two fields are non-empty at that moment, even if the newly
written field is empty; every triggered poll contacts the provider iff the
credential snapshot at poll time is complete — so a partial credential set
is persisted (the final state applies every provided value) but the provider
is never attempted for it; each single-field update polls iff the other two
current fields are non-empty. -/
theorem claim8_credential_gating :
    ∀ (st : Creds) (cid cs un : Option String),
      (∀ q ∈ (update_osu_settings st cid cs un).2.1,
        ∀ (now : Int) (provider : ProviderResult),
          (get_daily_streak q now provider).providerCalled = true ↔
            credsComplete q = true) ∧
      (update_osu_settings st cid cs un).1 = applyCreds st cid cs un ∧
      (∀ v, (update_osu_settings st (some v) none none).2.1 ≠ [] ↔
        st.client_secret ≠ "" ∧ st.username ≠ "") ∧
      (∀ v, (update_osu_settings st none (some v) none).2.1 ≠ [] ↔
        st.client_id ≠ "" ∧ st.username ≠ "") ∧
      (∀ v, (update_osu_settings st none none (some v)).2.1 ≠ [] ↔
        st.client_id ≠ "" ∧ st.client_secret ≠ "") := by
  intro st cid cs un
  refine ⟨?_, ?_, ?_, ?_, ?_⟩
  · intro q _ now provider
    by_cases h : q.client_id = "" ∨ q.client_secret = "" ∨ q.username = "" <;>
      cases provider <;>
      simp [get_daily_streak, credsComplete, h] <;> tauto
  · rcases cid with _ | v1 <;> rcases cs with _ | v2 <;>
      rcases un with _ | v3 <;>
      simp only [update_osu_settings, applyCreds, Option.getD] <;>
      (try split_ifs) <;> rfl
  · intro v
    simp only [update_osu_settings]
    split_ifs with h <;> simp <;> tauto
  · intro v
    simp only [update_osu_settings]
    split_ifs with h <;> simp <;> tauto
  · intro v
    simp only [update_osu_settings]
    split_ifs with h <;> simp <;> tauto

/-- Concrete instantiation of `claim8_credential_gating`: the poll triggered
by blanking the client id does not contact the provider. -/
theorem claim8_credential_gating_witness :
    ((⟨"", "S", "U"⟩ : Creds) ∈
      (update_osu_settings ⟨"A", "S", "U"⟩ (some "") none none).2.1) ∧
    (get_daily_streak ⟨"", "S", "U"⟩ 0 .err).providerCalled = false :=
  ⟨by decide,
    by
      have h := ((claim8_credential_gating ⟨"A", "S", "U"⟩ (some "") none
        none).1 ⟨"", "S", "U"⟩ (by decide) 0 .err)
      have hc : credsComplete (⟨"", "S", "U"⟩ : Creds) = false := by decide
      cases hp : (get_daily_streak ⟨"", "S", "U"⟩ 0 .err).providerCalled
      · rfl
      · exact absurd (h.1 hp) (by simp [hc])⟩

/-- Observable outcome of one `save_settings` call. -/
inductive SaveOutcome where
  | savedAtomic : SaveOutcome
  | savedFallback : SaveOutcome
  | failed : SaveOutcome
deriving DecidableEq, Repr

/-- `save_settings`, with the filesystem's behaviour as explicit flags:
`dirOk` — the settings directory exists or `os.makedirs` succeeded;
`writeTmpOk` — opening, writing and fsyncing the temp file succeeded;
`renameOk` — `os.replace` / `os.rename` over the canonical file succeeded;
`fallbackOk` — the exception handler's direct overwrite of the canonical
file succeeded.
Any exception in the atomic path lands in the handler, which attempts a
direct `json.dump` to the canonical file; when the directory could not be
created that fallback necessarily crashes too (the directory is still
missing, and the `settings` local was never bound), which the inner handler
logs as fatal. No exception escapes the function. -/
def save_settings (dirOk writeTmpOk renameOk fallbackOk : Bool) :
    SaveOutcome :=
  if !dirOk then .failed
  else if !writeTmpOk then
    if fallbackOk then .savedFallback else .failed
  else if !renameOk then
    if fallbackOk then .savedFallback else .failed
  else .savedAtomic

/-- Claim C3 counterexample: when the filesystem rejects the temp-file write
but the direct overwrite succeeds, the save completes via the fallback — it
does not fail with a storage error as the claim states. -/
theorem claim3_write_failure_counterexample :
    save_settings true false true true = .savedFallback ∧
    save_settings true false true true ≠ .failed := by
  refine ⟨by decide, by decide⟩

/-- Claim C3 amended: when the directory cannot be created the save fails
(the fallback crashes on the missing directory and unbound snapshot, logged
as fatal, never raised); when the whole atomic path succeeds the save is
atomic; when the temp-file write or the rename fails, the save degrades to
the best-effort direct overwrite, failing only if that overwrite also
fails. -/
theorem claim3_save_outcomes :
    ∀ (dirOk writeTmpOk renameOk fallbackOk : Bool),
      (dirOk = false →
        save_settings dirOk writeTmpOk renameOk fallbackOk = .failed) ∧
      (dirOk = true → writeTmpOk = true → renameOk = true →
        save_settings dirOk writeTmpOk renameOk fallbackOk = .savedAtomic) ∧
      (dirOk = true → (writeTmpOk = false ∨ renameOk = false) →
        save_settings dirOk writeTmpOk renameOk fallbackOk =
          if fallbackOk then .savedFallback else .failed) := by
  intro dirOk writeTmpOk renameOk fallbackOk
  refine ⟨?_, ?_, ?_⟩
  · intro h
    subst h
    rfl
  · intro h1 h2 h3
    subst h1; subst h2; subst h3
    rfl
  · intro h1 h2
    subst h1
    cases writeTmpOk <;> cases renameOk <;> cases fallbackOk <;>
      simp_all [save_settings]

/-- Concrete instantiation of `claim3_save_outcomes` on all three branches. -/
theorem claim3_save_outcomes_witness :
    save_settings false true true true = .failed ∧
    save_settings true true true true = .savedAtomic ∧
    save_settings true true false false =
      (if false then SaveOutcome.savedFallback else .failed) :=
  ⟨(claim3_save_outcomes false true true true).1 rfl,
    (claim3_save_outcomes true true true true).2.1 rfl rfl rfl,
    (claim3_save_outcomes true true false false).2.2 rfl (Or.inr rfl)⟩

/-- JSON values as produced by `json.load` for this file's settings
(floats do not occur in any value the widget writes or validates). -/
inductive JVal where
  | jnum : Int → JVal
  | jstr : String → JVal
  | jbool : Bool → JVal
  | jnull : JVal
  | jobj : List (String × JVal) → JVal
deriving Repr

/-- A JSON object as an ordered association list with unique keys, matching
a Python `dict`. -/
abbrev JRecord := List (String × JVal)

/-- Python `dict` lookup (first matching key). -/
def lookupKey : JRecord → String → Option JVal
  | [], _ => none
  | (k, v) :: rest, key => if k = key then some v else lookupKey rest key

/-- Python `dict` item assignment: replace the first binding of the key, or
append a new one. -/
def setKey : JRecord → String → JVal → JRecord
  | [], key, v => [(key, v)]
  | (k, w) :: rest, key, v =>
    if k = key then (k, v) :: rest else (k, w) :: setKey rest key v

/-- Python `dict.pop`. -/
def removeKey : JRecord → String → JRecord
  | [], _ => []
  | (k, w) :: rest, key =>
    if k = key then removeKey rest key else (k, w) :: removeKey rest key

/-- The decimal value of one character, if it is a digit. -/
def pyDigit (c : Char) : Option Nat :=
  if c.toNat < 48 ∨ 57 < c.toNat then none else some (c.toNat - 48)

/-- Accumulate the value of a run of characters that must all be digits. -/
def digitsVal : List Char → Nat → Option Nat
  | [], acc => some acc
  | c :: cs, acc =>
    match pyDigit c with
    | none => none
    | some d => digitsVal cs (acc * 10 + d)

/-- Python `int(str)`: surrounding whitespace stripped, an optional sign,
then at least one digit and nothing else; otherwise `ValueError`
(digit-group underscores, an irrelevant corner here, are not modelled). -/
def pyStrToInt (s : String) : Option Int :=
  let cs := s.data.dropWhile Char.isWhitespace
  let cs := (cs.reverse.dropWhile Char.isWhitespace).reverse
  match cs with
  | [] => none
  | '-' :: rest =>
    match rest with
    | [] => none
    | _ => (digitsVal rest 0).map fun n => -(n : Int)
  | '+' :: rest =>
    match rest with
    | [] => none
    | _ => (digitsVal rest 0).map fun n => (n : Int)
  | _ => (digitsVal cs 0).map fun n => (n : Int)

/-- Python `int(...)` on a JSON value: identity on integers, `True`/`False`
become 1/0, a string parses as an integer literal, anything else raises
`ValueError`/`TypeError` (modelled as `none`). -/
def pyInt : JVal → Option Int
  | .jnum n => some n
  | .jbool b => some (if b then 1 else 0)
  | .jstr s => pyStrToInt s
  | .jnull => none
  | .jobj _ => none

/-- The structural check on a loaded `position`: it must be a dict holding
both an `x` and a `y` key; returns those two raw values. -/
def posXY : JVal → Option (JVal × JVal)
  | .jobj fields =>
    match lookupKey fields "x", lookupKey fields "y" with
    | some vx, some vy => some (vx, vy)
    | _, _ => none
  | _ => none

/-- The `position` step of `load_settings`: absent key — record unchanged;
structurally malformed value — key popped; otherwise both coordinates pass
through `int(...)`, whose failure raises past this step (`none`). -/
def processPosition (l : JRecord) : Option JRecord :=
  match lookupKey l "position" with
  | none => some l
  | some pos =>
    match posXY pos with
    | none => some (removeKey l "position")
    | some (vx, vy) =>
      match pyInt vx, pyInt vy with
      | some xi, some yi =>
        some (setKey l "position" (.jobj [("x", .jnum xi), ("y", .jnum yi)]))
      | _, _ => none

/-- The `scale` step of `load_settings`: absent key — record unchanged; an
`int(...)` failure is caught locally and resets the value to 100, as does a
value outside `[100, 500]`; a valid value is stored back as an integer. -/
def processScale (l : JRecord) : JRecord :=
  match lookupKey l "scale" with
  | none => l
  | some v =>
    match pyInt v with
    | none => setKey l "scale" (.jnum 100)
    | some sc =>
      if sc < 100 ∨ 500 < sc then setKey l "scale" (.jnum 100)
      else setKey l "scale" (.jnum sc)

/-- `load_settings`: a missing file, a JSON parse error (`content = none`),
or an exception escaping the position step all end in the outer handler,
which returns the empty record `{}`; otherwise the validated record is
returned with the `position` and `scale` steps applied in order. -/
def load_settings (fileExists : Bool) (content : Option JRecord) : JRecord :=
  if fileExists then
    match content with
    | none => []
    | some l =>
      match processPosition l with
      | none => []
      | some l1 => processScale l1
  else []

/-- In the loaded record, a `position` is present, structurally well formed,
and has a coordinate on which `int(...)` raises. -/
def posIntCrash (l : JRecord) : Bool :=
  match lookupKey l "position" with
  | none => false
  | some pos =>
    match posXY pos with
    | none => false
    | some (vx, vy) => (pyInt vx).isNone || (pyInt vy).isNone

/-- The stored record of claim C4's counterexample: a well-typed scale of
250 next to a position whose `x` is the non-numeric string `"abc"`. -/
def cexRecord : JRecord :=
  [("position", .jobj [("x", .jstr "abc"), ("y", .jnum 5)]),
    ("scale", .jnum 250)]

/-- Claim C4 counterexample: on the spec's own example — a position whose
`x` is a non-numeric string — `load_settings` discards the whole record
(the valid `scale` of 250 included) instead of resetting only the malformed
field. -/
theorem claim4_position_crash_counterexample :
    load_settings true (some cexRecord) = [] ∧
    lookupKey cexRecord "scale" = some (.jnum 250) := by
  exact ⟨rfl, rfl⟩

theorem lookupKey_setKey (l : JRecord) (key k : String) (v : JVal) :
    lookupKey (setKey l key v) k =
      if k = key then some v else lookupKey l k := by
  induction l with
  | nil =>
    by_cases h : k = key
    · subst h
      simp [setKey, lookupKey]
    · have h' : ¬ key = k := fun hh => h hh.symm
      simp [setKey, lookupKey, h, h']
  | cons hd tl ih =>
    obtain ⟨k', w⟩ := hd
    by_cases h1 : k' = key
    · subst h1
      by_cases h2 : k = k'
      · subst h2
        simp [setKey, lookupKey]
      · have h2' : ¬ k' = k := fun hh => h2 hh.symm
        simp [setKey, lookupKey, h2, h2']
    · by_cases h2 : k' = k
      · subst h2
        simp [setKey, lookupKey, h1]
      · simp [setKey, lookupKey, h1, h2, ih]

theorem lookupKey_removeKey (l : JRecord) (key k : String) :
    lookupKey (removeKey l key) k =
      if k = key then none else lookupKey l k := by
  induction l with
  | nil => by_cases h : k = key <;> simp [removeKey, lookupKey, h]
  | cons hd tl ih =>
    obtain ⟨k', w⟩ := hd
    by_cases h1 : k' = key
    · subst h1
      by_cases h2 : k = k'
      · subst h2
        simp [removeKey, lookupKey, ih]
      · have h2' : ¬ k' = k := fun hh => h2 hh.symm
        simp [removeKey, lookupKey, h2, h2', ih]
    · by_cases h2 : k' = k
      · subst h2
        simp [removeKey, lookupKey, h1]
      · simp [removeKey, lookupKey, h1, h2, ih]

theorem lookupKey_processScale (l : JRecord) (k : String)
    (hk : k ≠ "scale") :
    lookupKey (processScale l) k = lookupKey l k := by
  simp only [processScale]
  rcases h1 : lookupKey l "scale" with _ | v
  · rfl
  · rcases h2 : pyInt v with _ | sc
    · simp only [h2]
      simp [lookupKey_setKey, hk]
    · simp only [h2]
      split_ifs <;> simp [lookupKey_setKey, hk]

theorem processPosition_of_no_crash (l : JRecord)
    (h : posIntCrash l = false) :
    ∃ l1, processPosition l = some l1 ∧
      ∀ k, k ≠ "position" → lookupKey l1 k = lookupKey l k := by
  rcases h1 : lookupKey l "position" with _ | pos
  · exact ⟨l, by simp only [processPosition, h1], fun k _ => rfl⟩
  · rcases h2 : posXY pos with _ | ⟨vx, vy⟩
    · refine ⟨removeKey l "position", ?_, fun k hk => by
        simp [lookupKey_removeKey, hk]⟩
      simp only [processPosition, h1, h2]
    · simp only [posIntCrash, h1, h2] at h
      rcases h3 : pyInt vx with _ | xi
      · rw [h3] at h
        simp at h
      · rcases h4 : pyInt vy with _ | yi
        · rw [h3, h4] at h
          simp at h
        · refine ⟨setKey l "position"
            (.jobj [("x", .jnum xi), ("y", .jnum yi)]), ?_, fun k hk => by
              simp [lookupKey_setKey, hk]⟩
          simp only [processPosition, h1, h2, h3, h4]

/-- Claim C4 amended: `load_settings` tolerates a malformed `scale` (reset
to 100, everything else preserved) and a structurally malformed `position`
(non-dict or missing `x`/`y`, dropped with everything else preserved), and
any well-typed field other than `position` and `scale` is always carried
through unchanged — but a `position` whose `x` or `y` fails integer
conversion aborts the whole load and returns the empty record. -/
theorem claim4_partial_tolerance :
    ∀ l : JRecord,
      (posIntCrash l = true → load_settings true (some l) = []) ∧
      (posIntCrash l = false → ∀ k, k ≠ "position" → k ≠ "scale" →
        lookupKey (load_settings true (some l)) k = lookupKey l k) ∧
      (posIntCrash l = false → ∀ v, lookupKey l "scale" = some v →
        pyInt v = none →
        lookupKey (load_settings true (some l)) "scale" =
          some (.jnum 100)) := by
  intro l
  refine ⟨?_, ?_, ?_⟩
  · intro h
    simp only [load_settings, if_true]
    rcases h1 : lookupKey l "position" with _ | pos
    · simp only [posIntCrash, h1] at h
      exact absurd h (by simp)
    · rcases h2 : posXY pos with _ | ⟨vx, vy⟩
      · simp only [posIntCrash, h1, h2] at h
        exact absurd h (by simp)
      · simp only [posIntCrash, h1, h2] at h
        rcases h3 : pyInt vx with _ | xi
        · simp only [processPosition, h1, h2, h3]
        · rcases h4 : pyInt vy with _ | yi
          · simp only [processPosition, h1, h2, h3, h4]
          · rw [h3, h4] at h
            simp at h
  · intro h k hk1 hk2
    obtain ⟨l1, hp, hlk⟩ := processPosition_of_no_crash l h
    simp only [load_settings, if_true, hp]
    rw [lookupKey_processScale l1 k hk2, hlk k hk1]
  · intro h v hv hpv
    obtain ⟨l1, hp, hlk⟩ := processPosition_of_no_crash l h
    have hs : lookupKey l1 "scale" = some v := by
      rw [hlk "scale" (by decide), hv]
    simp only [load_settings, if_true, hp]
    simp only [processScale, hs, hpv]
    simp [lookupKey_setKey]

/-- A record with a valid extra field and a malformed scale, exercising the
tolerant branches of `claim4_partial_tolerance`. -/
def okRecord : JRecord :=
  [("always_on_top", .jbool true), ("scale", .jstr "abc")]

/-- Concrete instantiation of `claim4_partial_tolerance`: the crash case on
`cexRecord`, and on `okRecord` the preserved neighbour field next to the
locally reset malformed scale. -/
theorem claim4_partial_tolerance_witness :
    load_settings true (some cexRecord) = [] ∧
    lookupKey (load_settings true (some okRecord)) "always_on_top" =
      some (.jbool true) ∧
    lookupKey (load_settings true (some okRecord)) "scale" =
      some (.jnum 100) :=
  ⟨(claim4_partial_tolerance cexRecord).1 rfl,
    ((claim4_partial_tolerance okRecord).2.1 rfl "always_on_top"
      (by decide) (by decide)).trans rfl,
    (claim4_partial_tolerance okRecord).2.2 rfl (.jstr "abc") rfl rfl⟩

/-- The user name substituted into the template by `update_streak` (the
periodic refresh): `self.osu_username if self.osu_username else "rvany345"`,
where Python truthiness makes exactly the empty string falsy. -/
def update_streak_user (username : String) : String :=
  if username ≠ "" then username else "rvany345"

/-- The user name substituted into the template by `initUI` (the initial
render), with the same conditional expression. -/
def initUI_user (username : String) : String :=
  if username ≠ "" then username else "rvany345"

/-- The user name substituted into the template by `toggle_template`, with
the same conditional expression. -/
def toggle_template_user (username : String) : String :=
  if username ≠ "" then username else "rvany345"

/-- Claim C10: whenever the stored osu! username is empty, all three render
sites (initial render, periodic refresh, template toggle) substitute the
fixed placeholder `"rvany345"`; a non-empty username is substituted
verbatim everywhere. -/
theorem claim10_placeholder_user :
    ∀ username : String,
      (username = "" →
        update_streak_user username = "rvany345" ∧
        initUI_user username = "rvany345" ∧
        toggle_template_user username = "rvany345") ∧
      (username ≠ "" →
        update_streak_user username = username ∧
        initUI_user username = username ∧
        toggle_template_user username = username) := by
  intro username
  constructor
  · intro h
    subst h
    exact ⟨rfl, rfl, rfl⟩
  · intro h
    simp [update_streak_user, initUI_user, toggle_template_user, h]

/-- Concrete instantiation of `claim10_placeholder_user` at the empty and a
non-empty username. -/
theorem claim10_placeholder_user_witness :
    (update_streak_user "" = "rvany345" ∧
      initUI_user "" = "rvany345" ∧
      toggle_template_user "" = "rvany345") ∧
    initUI_user "cookiezi" = "cookiezi" :=
  ⟨(claim10_placeholder_user "").1 rfl,
    ((claim10_placeholder_user "cookiezi").2 (by decide)).2.1⟩

end DailyWidget
